import Mathlib

/-!
Shallow embedding of the lesson-scheduling core of the timetable web
application (files `timetable_app/models.py`, `timetable_app/views.py`,
`timetable_app/urls.py`), together with theorems settling the stated
properties of the specification.

Modelling conventions:
* A timezone-aware timestamp is modelled as a number of minutes since an
  arbitrary epoch; a calendar date is a day index `d : Nat`, and
  `timezone.make_aware(datetime.combine(date, time(h, m)))` becomes
  `mkAware d h m = 1440 * d + 60 * h + m`.  Comparison of aware timestamps
  in one timezone agrees with this order.
* Nullable columns become `Option`; Python truthiness of the slot integer
  (`0` and `None` are falsy) is modelled explicitly.
* Database rows are lists; a queryset `filter` is `List.filter`; foreign
  keys are plain numeric ids (rows with a NULL teacher/group never match a
  `filter(teacher__id=...)` query and play no role in the claims, so they
  are not represented).
* A Python function that can raise is embedded as `Except`.
-/

namespace Timetable

/-- `timezone.make_aware(datetime.combine(d, time(h, m)))`, in minutes since
day 0 of the model's epoch. -/
def mkAware (d h m : Nat) : Nat := 1440 * d + 60 * h + m

/-- The fields of `Lesson` (models.py:383-407) that the validation logic
reads: `date`, `lesson_slot`, the derived `start_time`/`end_time`
(both `editable=False`, NULL until `validate_lesson` assigns them), and the
`subject`/`teacher`/`group` foreign keys, kept as numeric ids. -/
structure Lesson where
  date : Option Nat
  lesson_slot : Option Int
  start_time : Option Nat
  end_time : Option Nat
  subject : Nat
  teacher : Nat
  group : Nat
deriving DecidableEq, Repr

/-- `ValueError("Invalid lesson slot")` raised by `validate_lesson`
(models.py:449). -/
inductive SlotError
  | invalidSlot
deriving DecidableEq, Repr

deriving instance DecidableEq for Except

/-- The result of `{l with start_time, end_time}` for one row of the fixed
slot table: start at `sh:sm`, end at `eh:em` on day `d`. -/
def slotAssigned (l : Lesson) (d sh sm eh em : Nat) : Lesson :=
  { l with start_time := some (mkAware d sh sm), end_time := some (mkAware d eh em) }

/-- The slot-resolution prefix of `Lesson.validate_lesson`
(models.py:429-449): when `self.date and self.lesson_slot` is truthy
(the slot `0` is falsy in Python, like `None`), slots 1-6 assign the fixed
wall-clock pairs 09:00-10:30, 10:45-12:15, 13:15-14:45, 15:00-16:30,
16:45-18:15, 18:30-20:00 on the lesson's date, and any other slot raises
`ValueError("Invalid lesson slot")`; otherwise `self` is left unchanged. -/
def assignSlotTimes (l : Lesson) : Except SlotError Lesson :=
  match l.date, l.lesson_slot with
  | some d, some s =>
      if s = 0 then .ok l
      else if s = 1 then .ok (slotAssigned l d 9 0 10 30)
      else if s = 2 then .ok (slotAssigned l d 10 45 12 15)
      else if s = 3 then .ok (slotAssigned l d 13 15 14 45)
      else if s = 4 then .ok (slotAssigned l d 15 0 16 30)
      else if s = 5 then .ok (slotAssigned l d 16 45 18 15)
      else if s = 6 then .ok (slotAssigned l d 18 30 20 0)
      else .error .invalidSlot
  | _, _ => .ok l

/-- The chained comparison `s <= x <= e` (models.py:458). -/
def withinIncl (s e x : Nat) : Bool := decide (s ≤ x) && decide (x ≤ e)

/-- The body of the overlap loops (models.py:456-461, 466-471): an existing
lesson `x` with a defined interval conflicts when the candidate's start or
end falls within `[x.start_time, x.end_time]` (inclusive). -/
def conflictsWith (st en : Nat) (x : Lesson) : Bool :=
  match x.start_time, x.end_time with
  | some xs, some xe => withinIncl xs xe st || withinIncl xs xe en
  | _, _ => false

/-- One overlap loop of `validate_lesson`: `True` iff some lesson of the
fetched queryset conflicts with the candidate interval. -/
def busyAgainst (existing : List Lesson) (st en : Nat) : Bool :=
  existing.any (conflictsWith st en)

/-- `Lesson.validate_lesson` (models.py:409-472) over a store of persisted
lessons: resolve the slot (possibly raising), fetch
`Lesson.objects.filter(teacher__id=self.teacher.id)`, return `False` when
`start_time` or `end_time` is `None`, return `False` on a conflict with any
lesson of the same teacher, then likewise for the same group, else `True`.
The returned lesson is `self` after its `start_time`/`end_time` mutation. -/
def validate_lesson (store : List Lesson) (l0 : Lesson) : Except SlotError (Lesson × Bool) :=
  match assignSlotTimes l0 with
  | .error e => .error e
  | .ok l =>
      let teachers_lessons := store.filter (fun x => decide (x.teacher = l.teacher))
      match l.start_time, l.end_time with
      | some st, some en =>
          if busyAgainst teachers_lessons st en then .ok (l, false)
          else
            let group_lessons := store.filter (fun x => decide (x.group = l.group))
            if busyAgainst group_lessons st en then .ok (l, false)
            else .ok (l, true)
      | _, _ => .ok (l, false)

/-- The database state `Lesson.clean` queries: the persisted lessons and
the two many-to-many association tables `subject_teacher` and
`subject__group`, as (subject id, other id) pairs. -/
structure Store where
  lessons : List Lesson
  subjectTeachers : List (Nat × Nat)
  subjectGroups : List (Nat × Nat)
deriving DecidableEq, Repr

/-- `Teacher.objects.filter(subject__id=self.subject_id)` (models.py:485). -/
def teachersOf (db : Store) (subj : Nat) : List Nat :=
  (db.subjectTeachers.filter (fun p => decide (p.1 = subj))).map Prod.snd

/-- `Group.objects.filter(subject__id=self.subject_id)` (models.py:488). -/
def groupsOf (db : Store) (subj : Nat) : List Nat :=
  (db.subjectGroups.filter (fun p => decide (p.1 = subj))).map Prod.snd

/-- The exceptions `Lesson.clean` lets escape (models.py:474-495):
* `unauthorizedTeacher`: `ValidationError("It isn't teacher's {t} subject {s}.")`;
* `unauthorizedGroup`: `ValidationError("The lesson {s} does not belong to the group {g}.")`;
* `busy`: the single `ValidationError('The teacher or group is busy at this time.')`
  raised when `validate_lesson` returns `False`, whichever of the teacher or
  the group caused the conflict;
* `invalidSlot`: the `ValueError` propagating out of `validate_lesson`. -/
inductive CleanError
  | unauthorizedTeacher
  | unauthorizedGroup
  | busy
  | invalidSlot
deriving DecidableEq, Repr

/-- `Lesson.clean` (models.py:474-495): the teacher-authorization check,
then the group-authorization check, then `validate_lesson`; success returns
`self` with its derived times assigned. -/
def clean (db : Store) (l : Lesson) : Except CleanError Lesson :=
  if l.teacher ∈ teachersOf db l.subject then
    if l.group ∈ groupsOf db l.subject then
      match validate_lesson db.lessons l with
      | .error _ => .error .invalidSlot
      | .ok (l2, true) => .ok l2
      | .ok (_, false) => .error .busy
    else .error .unauthorizedGroup
  else .error .unauthorizedTeacher

/-- A freshly constructed `Lesson(date=d, lesson_slot=slot, subject=…,
teacher=…, group=…)`: the non-editable `start_time`/`end_time` are NULL. -/
def freshLesson (d : Option Nat) (slot : Option Int) (subj te gr : Nat) : Lesson :=
  { date := d, lesson_slot := slot, start_time := none, end_time := none,
    subject := subj, teacher := te, group := gr }

/-- A persisted lesson `old` after an edit of its editable fields: the
non-editable `start_time`/`end_time` keep their stored values. -/
def updatedLesson (old : Lesson) (d : Option Nat) (slot : Option Int) (subj te gr : Nat) : Lesson :=
  { date := d, lesson_slot := slot, start_time := old.start_time, end_time := old.end_time,
    subject := subj, teacher := te, group := gr }

/-- The lesson stores reachable from the empty store by create and update
operations that each pass `Lesson.clean` (against the current store and some
state of the association tables): a successful create prepends the cleaned
candidate; a successful update replaces the edited row in place, after
`clean` validated the edit against the whole current store. -/
inductive Reach : List Lesson → Prop
  | nil : Reach []
  | create {ls : List Lesson} {l' : Lesson} {st sg : List (Nat × Nat)}
      {d : Option Nat} {slot : Option Int} {subj te gr : Nat} :
      Reach ls →
      clean ⟨ls, st, sg⟩ (freshLesson d slot subj te gr) = .ok l' →
      Reach (l' :: ls)
  | update {a b : List Lesson} {old l' : Lesson} {st sg : List (Nat × Nat)}
      {d : Option Nat} {slot : Option Int} {subj te gr : Nat} :
      Reach (a ++ old :: b) →
      clean ⟨a ++ old :: b, st, sg⟩ (updatedLesson old d slot subj te gr) = .ok l' →
      Reach (a ++ l' :: b)

/-- The half-open intervals `[start,end)` of two lessons intersect (false
whenever either interval is undefined). -/
def overlapb (l1 l2 : Lesson) : Bool :=
  match l1.start_time, l1.end_time, l2.start_time, l2.end_time with
  | some s1, some e1, some s2, some e2 => decide (s1 < e2) && decide (s2 < e1)
  | _, _, _, _ => false

/-- Two lessons sharing a teacher or sharing a group do not have
intersecting `[start,end)` intervals. -/
def noConflict (l1 l2 : Lesson) : Prop :=
  (l1.teacher = l2.teacher ∨ l1.group = l2.group) → overlapb l1 l2 = false

/-- The HTTP-request user fields `Permission.has_permission` reads. -/
structure ReqUser where
  is_superuser : Bool
  is_staff : Bool
deriving DecidableEq, Repr

/-- `Permission.safe_methods` (views.py:264). -/
def safe_methods : List String := ["GET", "HEAD", "OPTIONS", "PATCH"]

/-- `Permission.unsafe_methods` (views.py:265). -/
def unsafe_methods : List String := ["POST", "PUT", "DELETE"]

/-- `Permission.has_permission` (views.py:267-280): `True` for a method in
`safe_methods`, otherwise `request.user.is_superuser or request.user.is_staff`. -/
def has_permission (method : String) (u : ReqUser) : Bool :=
  if method ∈ safe_methods then true else u.is_superuser || u.is_staff

/-- The `ValidationError`s raised by the timestamp validators, carrying the
`created` respectively `modified` param (models.py:44-48, 61-65). -/
inductive TimeStampError
  | createdFuture
  | modifiedFuture
deriving DecidableEq, Repr

/-- `check_created` (models.py:34-48): raise iff `dt > timezone.now()`;
`now` is passed explicitly. -/
def check_created (now dt : Nat) : Except TimeStampError Unit :=
  if dt > now then .error .createdFuture else .ok ()

/-- `check_modified` (models.py:51-65): raise iff `dt > timezone.now()`. -/
def check_modified (now dt : Nat) : Except TimeStampError Unit :=
  if dt > now then .error .modifiedFuture else .ok ()

/-- The rows the user-detail views query: existing account ids, and the
one-to-one links (account id, profile id) for students and teachers. -/
structure Accounts where
  users : List Nat
  studentOf : List (Nat × Nat)
  teacherOf : List (Nat × Nat)
deriving DecidableEq, Repr

/-- An HTTP response body of the user-detail views: the literal error
payload, or the serialized profile (kept abstract as its id). -/
inductive Body
  | error (msg : String)
  | data (profile : Nat)
deriving DecidableEq, Repr

/-- The body of `UserStudentDetailView.get` (views.py:33-52):
`AppUser.objects.get(pk=user_id)` (404 "Пользователь не найден" when
missing), then `Student.objects.get(user=user)` (404 "Студент не найден"
when missing), else 200 with the serialized student. -/
def user_student_get (db : Accounts) (uid : Nat) : Nat × Body :=
  if uid ∈ db.users then
    match db.studentOf.find? (fun p => decide (p.1 = uid)) with
    | some p => (200, .data p.2)
    | none => (404, .error "Студент не найден")
  else (404, .error "Пользователь не найден")

/-- The body of `UserTeacherDetailView.get` (views.py:58-77), identical but
with "Учитель не найден" for a missing teacher profile. -/
def user_teacher_get (db : Accounts) (uid : Nat) : Nat × Body :=
  if uid ∈ db.users then
    match db.teacherOf.find? (fun p => decide (p.1 = uid)) with
    | some p => (200, .data p.2)
    | none => (404, .error "Учитель не найден")
  else (404, .error "Пользователь не найден")

/-- The keyword name the URLconf captures for both detail routes:
`path('api/user/<str:id>/student/', ...)` (timetable_app/urls.py). -/
def url_detail_kwarg : String := "id"

/-- The keyword parameter both `get` handlers accept:
`def get(self, request, user_id=None)` (views.py:33, 58). -/
def view_detail_param : String := "user_id"

/-- The outcome of dispatching a routed request: the handler's response, or
the `TypeError` Python raises when the URL kwarg does not match any
parameter of the handler (surfaced as HTTP 500). -/
inductive RouteResult
  | resp (r : Nat × Body)
  | typeError
deriving DecidableEq, Repr

/-- Dispatch of `GET /api/user/{id}/student/`: Django passes the captured
value as keyword `url_detail_kwarg`; the handler runs only if its parameter
name matches, otherwise the call raises `TypeError`. -/
def route_user_student (db : Accounts) (uid : Nat) : RouteResult :=
  if url_detail_kwarg = view_detail_param then .resp (user_student_get db uid)
  else .typeError

/-- Dispatch of `GET /api/user/{id}/teacher/`, analogously. -/
def route_user_teacher (db : Accounts) (uid : Nat) : RouteResult :=
  if url_detail_kwarg = view_detail_param then .resp (user_teacher_get db uid)
  else .typeError

/-! ### Helper lemmas about `clean`, `validate_lesson` and slot intervals -/

/-- A successful `clean` means `validate_lesson` returned `True` and the
returned lesson is the validated (time-assigned) candidate. -/
theorem clean_ok_validate {db : Store} {l l' : Lesson} (h : clean db l = .ok l') :
    validate_lesson db.lessons l = .ok (l', true) := by
  unfold clean at h
  by_cases h1 : l.teacher ∈ teachersOf db l.subject
  · by_cases h2 : l.group ∈ groupsOf db l.subject
    · rw [if_pos h1, if_pos h2] at h
      rcases hv : validate_lesson db.lessons l with e | p
      · rw [hv] at h; simp at h
      · rcases p with ⟨l2, b⟩
        rw [hv] at h
        cases b
        · simp at h
        · simp at h; rw [h]
    · rw [if_pos h1, if_neg h2] at h; simp at h
  · rw [if_neg h1] at h; simp at h

/-- The lesson returned by `validate_lesson` is exactly the candidate after
slot resolution (the only mutation `validate_lesson` performs). -/
theorem validate_ok_assign {L : List Lesson} {l0 l : Lesson} {b : Bool}
    (h : validate_lesson L l0 = .ok (l, b)) : assignSlotTimes l0 = .ok l := by
  unfold validate_lesson at h
  rcases ha : assignSlotTimes l0 with e | l1 <;> rw [ha] at h
  · simp at h
  · simp only [] at h
    split at h
    · split at h
      · simp at h; rw [h.1]
      · split at h
        · simp at h; rw [h.1]
        · simp at h; rw [h.1]
    · simp at h; rw [h.1]

/-- What `validate_lesson` returning `True` guarantees: the validated
candidate has a defined interval whose endpoints avoid the closed interval
of every stored lesson of the same teacher and of the same group. -/
theorem validate_true_spec {L : List Lesson} {l0 l : Lesson}
    (h : validate_lesson L l0 = .ok (l, true)) :
    ∃ st en, l.start_time = some st ∧ l.end_time = some en ∧
      (∀ x ∈ L, x.teacher = l.teacher → conflictsWith st en x = false) ∧
      (∀ x ∈ L, x.group = l.group → conflictsWith st en x = false) := by
  unfold validate_lesson at h
  rcases ha : assignSlotTimes l0 with e | l1 <;> rw [ha] at h
  · simp at h
  · simp only [] at h
    split at h
    · rename_i st en h1 h2
      split at h
      · simp at h
      · rename_i hbT
        split at h
        · simp at h
        · rename_i hbG
          simp at h
          subst h
          have hbT2 : busyAgainst (L.filter fun y => decide (y.teacher = l1.teacher)) st en = false := by
            simpa using hbT
          have hbG2 : busyAgainst (L.filter fun y => decide (y.group = l1.group)) st en = false := by
            simpa using hbG
          refine ⟨st, en, h1, h2, ?_, ?_⟩
          · intro x hx hteq
            have hmem : x ∈ L.filter (fun y => decide (y.teacher = l1.teacher)) :=
              List.mem_filter.mpr ⟨hx, by simp [hteq]⟩
            have := List.any_eq_false.mp hbT2 x hmem
            simpa using this
          · intro x hx hgeq
            have hmem : x ∈ L.filter (fun y => decide (y.group = l1.group)) :=
              List.mem_filter.mpr ⟨hx, by simp [hgeq]⟩
            have := List.any_eq_false.mp hbG2 x hmem
            simpa using this
    · simp at h

/-- Slot resolution leaves the subject/teacher/group ids untouched and
either keeps the stored times or assigns a slot interval; every slot of the
fixed table lasts exactly 90 minutes. -/
theorem assign_shape {l0 l : Lesson} (h : assignSlotTimes l0 = .ok l) :
    l.subject = l0.subject ∧ l.teacher = l0.teacher ∧ l.group = l0.group ∧
      ((l.start_time = l0.start_time ∧ l.end_time = l0.end_time) ∨
        ∃ s, l.start_time = some s ∧ l.end_time = some (s + 90)) := by
  unfold assignSlotTimes at h
  rcases hd : l0.date with _ | d <;> rcases hs : l0.lesson_slot with _ | s <;>
      rw [hd, hs] at h <;> simp only [] at h
  · simp at h; subst h; exact ⟨rfl, rfl, rfl, Or.inl ⟨rfl, rfl⟩⟩
  · simp at h; subst h; exact ⟨rfl, rfl, rfl, Or.inl ⟨rfl, rfl⟩⟩
  · simp at h; subst h; exact ⟨rfl, rfl, rfl, Or.inl ⟨rfl, rfl⟩⟩
  · split_ifs at h
    · simp at h; subst h; exact ⟨rfl, rfl, rfl, Or.inl ⟨rfl, rfl⟩⟩
    · simp at h; subst h
      refine ⟨rfl, rfl, rfl, Or.inr ⟨mkAware d 9 0, rfl, ?_⟩⟩
      simp only [slotAssigned, mkAware, Option.some.injEq]
    · simp at h; subst h
      refine ⟨rfl, rfl, rfl, Or.inr ⟨mkAware d 10 45, rfl, ?_⟩⟩
      simp only [slotAssigned, mkAware, Option.some.injEq]
    · simp at h; subst h
      refine ⟨rfl, rfl, rfl, Or.inr ⟨mkAware d 13 15, rfl, ?_⟩⟩
      simp only [slotAssigned, mkAware, Option.some.injEq]
    · simp at h; subst h
      refine ⟨rfl, rfl, rfl, Or.inr ⟨mkAware d 15 0, rfl, ?_⟩⟩
      simp only [slotAssigned, mkAware, Option.some.injEq]
    · simp at h; subst h
      refine ⟨rfl, rfl, rfl, Or.inr ⟨mkAware d 16 45, rfl, ?_⟩⟩
      simp only [slotAssigned, mkAware, Option.some.injEq]
    · simp at h; subst h
      refine ⟨rfl, rfl, rfl, Or.inr ⟨mkAware d 18 30, rfl, ?_⟩⟩
      simp only [slotAssigned, mkAware, Option.some.injEq]

/-- Interval intersection is symmetric. -/
theorem overlapb_comm (a b : Lesson) : overlapb a b = overlapb b a := by
  unfold overlapb
  rcases a.start_time with _ | s1 <;> rcases a.end_time with _ | e1 <;>
    rcases b.start_time with _ | s2 <;> rcases b.end_time with _ | e2 <;>
    simp [Bool.and_comm]

/-- `noConflict` is symmetric. -/
theorem noConflict_symm {a b : Lesson} (h : noConflict a b) : noConflict b a := by
  intro hc
  rw [overlapb_comm]
  exact h (by tauto)

/-- For two 90-minute intervals, if neither endpoint of the candidate falls
in the closed interval of the other lesson, the half-open intervals are
disjoint. -/
theorem no_endpoint_hit_no_overlap {l x : Lesson} {s xs : Nat}
    (hl1 : l.start_time = some s) (hl2 : l.end_time = some (s + 90))
    (hx1 : x.start_time = some xs) (hx2 : x.end_time = some (xs + 90))
    (hc : conflictsWith s (s + 90) x = false) : overlapb l x = false := by
  unfold conflictsWith at hc
  rw [hx1, hx2] at hc
  unfold overlapb
  rw [hl1, hl2, hx1, hx2]
  simp [withinIncl] at hc ⊢
  omega

/-- Every lesson of the store has a defined, 90-minute `[start,end)`. -/
def IntervalsOK (L : List Lesson) : Prop :=
  ∀ l ∈ L, ∃ s, l.start_time = some s ∧ l.end_time = some (s + 90)

/-- A candidate that `validate_lesson` accepted (and whose interval, like
every slot-table interval, lasts 90 minutes) conflicts with no stored
90-minute lesson of the same teacher or group. -/
theorem validated_head_ok {L : List Lesson} {l0 l : Lesson}
    (hI : IntervalsOK L)
    (hv : validate_lesson L l0 = .ok (l, true))
    (hlen : ∃ s, l.start_time = some s ∧ l.end_time = some (s + 90)) :
    ∀ x ∈ L, noConflict l x := by
  rcases hlen with ⟨s, hs, he⟩
  rcases validate_true_spec hv with ⟨st, en, hs2, he2, hT, hG⟩
  rw [hs] at hs2
  rw [he] at he2
  injection hs2 with hst
  injection he2 with hen
  subst hst
  subst hen
  intro x hx hcond
  rcases hI x hx with ⟨xs, hx1, hx2⟩
  rcases hcond with hteq | hgeq
  · exact no_endpoint_hit_no_overlap hs he hx1 hx2 (hT x hx hteq.symm)
  · exact no_endpoint_hit_no_overlap hs he hx1 hx2 (hG x hx hgeq.symm)

/-- The accepted candidate of a create or update has a 90-minute interval:
a create starts with NULL times, so acceptance forces a slot assignment; an
update keeps the stored (90-minute) times unless a slot assignment replaces
them. -/
theorem reach_inv {L : List Lesson} (h : Reach L) :
    IntervalsOK L ∧ L.Pairwise noConflict := by
  induction h with
  | nil =>
    refine ⟨?_, List.Pairwise.nil⟩
    intro l hl
    cases hl
  | create hr hc ih =>
    rename_i ls l' st sg d slot subj te gr
    have hv := clean_ok_validate hc
    have ha := validate_ok_assign hv
    have hshape := assign_shape ha
    have hlen : ∃ s, l'.start_time = some s ∧ l'.end_time = some (s + 90) := by
      rcases hshape.2.2.2 with ⟨hst, _⟩ | hgood
      · rcases validate_true_spec hv with ⟨s2, e2, hs2, _, _, _⟩
        rw [hst] at hs2
        simp [freshLesson] at hs2
      · exact hgood
    constructor
    · intro x hx
      rcases List.mem_cons.mp hx with rfl | hx2
      · exact hlen
      · exact ih.1 x hx2
    · exact List.pairwise_cons.mpr ⟨validated_head_ok ih.1 hv hlen, ih.2⟩
  | update hr hc ih =>
    rename_i a b old l' st sg d slot subj te gr
    have hv := clean_ok_validate hc
    have ha := validate_ok_assign hv
    have hshape := assign_shape ha
    have holdmem : old ∈ a ++ old :: b := List.mem_append_right _ (List.mem_cons_self _ _)
    have hlen : ∃ s, l'.start_time = some s ∧ l'.end_time = some (s + 90) := by
      rcases hshape.2.2.2 with ⟨hst, hen⟩ | hgood
      · rcases ih.1 old holdmem with ⟨s0, h1, h2⟩
        exact ⟨s0, by rw [hst]; exact h1, by rw [hen]; exact h2⟩
      · exact hgood
    have hmem_of : ∀ x ∈ a ++ b, x ∈ a ++ old :: b := by
      intro x hx
      rcases List.mem_append.mp hx with hx1 | hx2
      · exact List.mem_append_left _ hx1
      · exact List.mem_append_right _ (List.mem_cons_of_mem _ hx2)
    constructor
    · intro x hx
      rcases List.mem_append.mp hx with hx1 | hx2
      · exact ih.1 x (List.mem_append_left _ hx1)
      · rcases List.mem_cons.mp hx2 with rfl | hx3
        · exact hlen
        · exact ih.1 x (List.mem_append_right _ (List.mem_cons_of_mem _ hx3))
    · have hsymm : ∀ {x y : Lesson}, noConflict x y → noConflict y x :=
        fun hxy => noConflict_symm hxy
      rw [List.pairwise_middle hsymm]
      refine List.pairwise_cons.mpr ⟨?_, ?_⟩
      · intro x hx
        exact validated_head_ok ih.1 hv hlen x (hmem_of x hx)
      · exact ((List.pairwise_middle hsymm).mp ih.2).of_cons

/-- Teacher-side busy conflict: if the candidate keeps its interval through
slot resolution and some same-teacher lesson conflicts with it, then
`validate_lesson` returns `False`. -/
theorem validate_teacher_busy {L : List Lesson} {l : Lesson} {p q : Nat}
    (hkeep : assignSlotTimes l = .ok l)
    (h1 : l.start_time = some p) (h2 : l.end_time = some q)
    (hbusy : busyAgainst (L.filter fun y => decide (y.teacher = l.teacher)) p q = true) :
    validate_lesson L l = .ok (l, false) := by
  unfold validate_lesson
  rw [hkeep]
  simp only []
  rw [h1, h2]
  simp only []
  simp [hbusy]

/-! ### Claim theorems -/

/-- C1, counterexample: `validate_lesson` does not return `False` for every
candidate whose interval overlaps an existing lesson of the same teacher or
group — a candidate whose `[start,end)` strictly contains the stored
interval (here `[500,700)` around the stored `[540,630)`, same teacher and
same group) is accepted, because only the candidate's own endpoints are
tested against the stored closed interval. -/
theorem validate_accepts_containing_interval :
    (⟨none, none, some 500, some 700, 0, 0, 0⟩ : Lesson).teacher =
        (⟨some 0, some 1, some 540, some 630, 0, 0, 0⟩ : Lesson).teacher ∧
    overlapb ⟨none, none, some 500, some 700, 0, 0, 0⟩
        ⟨some 0, some 1, some 540, some 630, 0, 0, 0⟩ = true ∧
    500 < 540 ∧ 630 < 700 ∧
    validate_lesson [⟨some 0, some 1, some 540, some 630, 0, 0, 0⟩]
        ⟨none, none, some 500, some 700, 0, 0, 0⟩ =
      .ok (⟨none, none, some 500, some 700, 0, 0, 0⟩, true) := by decide

/-- C1 (amended): every lesson store reachable from the empty store by
create and update operations that each pass `Lesson.clean` satisfies the
invariant — no two persisted lessons sharing a teacher, and no two sharing
a group, have intersecting `[start,end)` intervals.  (The overlap check
itself only rejects candidates whose start or end falls inside a stored
closed interval; strict containment escapes it, but cannot arise because
every validated lesson carries a 90-minute slot-table interval.) -/
theorem reachable_store_no_overlap {L : List Lesson} (h : Reach L) :
    L.Pairwise noConflict :=
  (reach_inv h).2

/-- C1, witness: the store built by two validated creates (slot 1 and
slot 2 on the same day, same teacher and group) satisfies the pairwise
no-overlap invariant. -/
theorem reachable_store_no_overlap_witness :
    List.Pairwise noConflict
      [⟨some 0, some 2, some 645, some 735, 0, 0, 0⟩,
       ⟨some 0, some 1, some 540, some 630, 0, 0, 0⟩] :=
  reachable_store_no_overlap
    (Reach.create
      (Reach.create Reach.nil
        (show clean ⟨[], [(0, 0)], [(0, 0)]⟩ (freshLesson (some 0) (some 1) 0 0 0) =
            .ok ⟨some 0, some 1, some 540, some 630, 0, 0, 0⟩ by decide))
      (show clean ⟨[⟨some 0, some 1, some 540, some 630, 0, 0, 0⟩], [(0, 0)], [(0, 0)]⟩
            (freshLesson (some 0) (some 2) 0 0 0) =
          .ok ⟨some 0, some 2, some 645, some 735, 0, 0, 0⟩ by decide))

/-- C2: slot-based resolution maps each slot in {1..6} on date `d` to its
fixed wall-clock interval — 1 ↦ [09:00,10:30], 2 ↦ [10:45,12:15],
3 ↦ [13:15,14:45], 4 ↦ [15:00,16:30], 5 ↦ [16:45,18:15],
6 ↦ [18:30,20:00] — and a lesson created with slot 1 on date `d` that
passes `clean` reads back `start_time = d 09:00`, `end_time = d 10:30`. -/
theorem slot_resolution_roundtrip (d u v w : Nat) :
    assignSlotTimes (freshLesson (some d) (some 1) u v w) =
      .ok { freshLesson (some d) (some 1) u v w with
            start_time := some (mkAware d 9 0), end_time := some (mkAware d 10 30) } ∧
    assignSlotTimes (freshLesson (some d) (some 2) u v w) =
      .ok { freshLesson (some d) (some 2) u v w with
            start_time := some (mkAware d 10 45), end_time := some (mkAware d 12 15) } ∧
    assignSlotTimes (freshLesson (some d) (some 3) u v w) =
      .ok { freshLesson (some d) (some 3) u v w with
            start_time := some (mkAware d 13 15), end_time := some (mkAware d 14 45) } ∧
    assignSlotTimes (freshLesson (some d) (some 4) u v w) =
      .ok { freshLesson (some d) (some 4) u v w with
            start_time := some (mkAware d 15 0), end_time := some (mkAware d 16 30) } ∧
    assignSlotTimes (freshLesson (some d) (some 5) u v w) =
      .ok { freshLesson (some d) (some 5) u v w with
            start_time := some (mkAware d 16 45), end_time := some (mkAware d 18 15) } ∧
    assignSlotTimes (freshLesson (some d) (some 6) u v w) =
      .ok { freshLesson (some d) (some 6) u v w with
            start_time := some (mkAware d 18 30), end_time := some (mkAware d 20 0) } ∧
    ∀ (db : Store) (l2 : Lesson),
      clean db (freshLesson (some d) (some 1) u v w) = .ok l2 →
        l2.start_time = some (mkAware d 9 0) ∧ l2.end_time = some (mkAware d 10 30) := by
  refine ⟨rfl, rfl, rfl, rfl, rfl, rfl, ?_⟩
  intro db l2 h
  have ha := validate_ok_assign (clean_ok_validate h)
  have hfix : assignSlotTimes (freshLesson (some d) (some 1) u v w) =
      .ok (slotAssigned (freshLesson (some d) (some 1) u v w) d 9 0 10 30) := rfl
  rw [hfix] at ha
  simp at ha
  rw [← ha]
  exact ⟨rfl, rfl⟩

/-- C2, witness: creating a lesson with slot 1 on day 1 through `clean`
yields `start_time = mkAware 1 9 0` and `end_time = mkAware 1 10 30`. -/
theorem slot_resolution_roundtrip_witness :
    (⟨some 1, some 1, some (mkAware 1 9 0), some (mkAware 1 10 30), 0, 0, 0⟩ : Lesson).start_time =
        some (mkAware 1 9 0) ∧
    (⟨some 1, some 1, some (mkAware 1 9 0), some (mkAware 1 10 30), 0, 0, 0⟩ : Lesson).end_time =
        some (mkAware 1 10 30) :=
  (slot_resolution_roundtrip 1 0 0 0).2.2.2.2.2.2 ⟨[], [(0, 0)], [(0, 0)]⟩
    ⟨some 1, some 1, some (mkAware 1 9 0), some (mkAware 1 10 30), 0, 0, 0⟩ (by decide)

/-- C3: boundary-touching intervals conflict under the inclusive
comparison — a candidate whose start equals the end (or whose end equals
the start) of a stored same-teacher lesson is rejected by
`validate_lesson`, and the insertion (`clean`) therefore fails. -/
theorem boundary_touch_conflicts (L : List Lesson) (l x : Lesson) (p q a b : Nat)
    (hx : x ∈ L) (ht : x.teacher = l.teacher)
    (h1 : x.start_time = some p) (h2 : x.end_time = some q) (hpq : p ≤ q)
    (h3 : l.start_time = some a) (h4 : l.end_time = some b)
    (htouch : a = q ∨ b = p)
    (hkeep : assignSlotTimes l = .ok l) :
    validate_lesson L l = .ok (l, false) ∧
    ∀ (t g : List (Nat × Nat)) (l2 : Lesson), clean ⟨L, t, g⟩ l ≠ .ok l2 := by
  have hbusy : busyAgainst (L.filter fun y => decide (y.teacher = l.teacher)) a b = true := by
    refine List.any_eq_true.mpr ⟨x, List.mem_filter.mpr ⟨hx, by simp [ht]⟩, ?_⟩
    unfold conflictsWith
    rw [h1, h2]
    simp only []
    rcases htouch with rfl | rfl
    · simp [withinIncl]
      omega
    · simp [withinIncl]
      omega
  have hval := validate_teacher_busy hkeep h3 h4 hbusy
  refine ⟨hval, ?_⟩
  intro t g l2 hcl
  have hv2 := clean_ok_validate hcl
  rw [hval] at hv2
  simp at hv2

/-- C3, witness: with `[540,630) = [9:00,10:30)` stored for teacher 0,
the candidate `[630,735) = [10:30,12:15)` for the same teacher is
rejected. -/
theorem boundary_touch_conflicts_witness :
    validate_lesson [⟨some 0, some 1, some 540, some 630, 0, 0, 0⟩]
        ⟨none, none, some 630, some 735, 0, 0, 0⟩ =
      .ok (⟨none, none, some 630, some 735, 0, 0, 0⟩, false) :=
  (boundary_touch_conflicts [⟨some 0, some 1, some 540, some 630, 0, 0, 0⟩]
    ⟨none, none, some 630, some 735, 0, 0, 0⟩
    ⟨some 0, some 1, some 540, some 630, 0, 0, 0⟩
    540 630 630 735 (by decide) rfl rfl rfl (by decide) rfl rfl (Or.inl rfl) (by decide)).1

/-- C4: `Lesson.clean` fails with the unauthorized-teacher error whenever
the candidate's teacher is not among the teachers of its subject, and —
the teacher being authorized — with the unauthorized-group error whenever
the candidate's group is not among the subject's groups; both failures
occur for every store state, i.e. before the overlap check is reached. -/
theorem authorization_checks (db : Store) (l : Lesson) :
    (l.teacher ∉ teachersOf db l.subject → clean db l = .error .unauthorizedTeacher) ∧
    (l.teacher ∈ teachersOf db l.subject → l.group ∉ groupsOf db l.subject →
      clean db l = .error .unauthorizedGroup) := by
  constructor
  · intro h
    unfold clean
    rw [if_neg h]
  · intro h1 h2
    unfold clean
    rw [if_pos h1, if_neg h2]

/-- C4, witness: teacher 5 is not linked to subject 0, so cleaning fails
with the unauthorized-teacher error; group 5 is not linked to subject 0,
so (with an authorized teacher) cleaning fails with the unauthorized-group
error. -/
theorem authorization_checks_witness :
    clean ⟨[], [(0, 0)], [(0, 0)]⟩ ⟨some 0, some 1, none, none, 0, 5, 0⟩ =
        .error .unauthorizedTeacher ∧
    clean ⟨[], [(0, 0)], [(0, 0)]⟩ ⟨some 0, some 1, none, none, 0, 0, 5⟩ =
        .error .unauthorizedGroup :=
  ⟨(authorization_checks ⟨[], [(0, 0)], [(0, 0)]⟩ ⟨some 0, some 1, none, none, 0, 5, 0⟩).1
      (by decide),
   (authorization_checks ⟨[], [(0, 0)], [(0, 0)]⟩ ⟨some 0, some 1, none, none, 0, 0, 5⟩).2
      (by decide) (by decide)⟩

/-- C5, counterexample: resolving slot 0 does not fail with the
invalid-slot error — `0` is falsy in `if self.date and self.lesson_slot`,
so the slot table (and its `else` raise) is skipped entirely and
`validate_lesson` merely returns `False` because the times stay NULL. -/
theorem slot_zero_no_invalid_slot_error :
    validate_lesson [] (freshLesson (some 0) (some 0) 0 0 0) =
      .ok (freshLesson (some 0) (some 0) 0 0 0, false) ∧
    validate_lesson [] (freshLesson (some 0) (some 0) 0 0 0) ≠ .error .invalidSlot := by decide

/-- C5 (amended): for a candidate with a date, every nonzero slot outside
{1..6} makes `validate_lesson` raise the invalid-slot `ValueError`, while
slot 0 is treated like an absent slot (Python falsiness): resolution is
skipped and validation returns `False` (times still NULL), not
`InvalidSlot`. -/
theorem invalid_slot_behavior (L : List Lesson) (l : Lesson) (d : Nat)
    (hd : l.date = some d) :
    (∀ s : Int, l.lesson_slot = some s → s ≠ 0 → (s < 1 ∨ 6 < s) →
      validate_lesson L l = .error .invalidSlot) ∧
    (l.lesson_slot = some 0 → l.start_time = none →
      validate_lesson L l = .ok (l, false)) := by
  constructor
  · intro s hs h0 hout
    have ha : assignSlotTimes l = .error .invalidSlot := by
      unfold assignSlotTimes
      rw [hd, hs]
      simp only []
      split_ifs <;> first | rfl | (exfalso; omega)
    unfold validate_lesson
    rw [ha]
  · intro hs h0
    have ha : assignSlotTimes l = .ok l := by
      unfold assignSlotTimes
      rw [hd, hs]
      simp
    unfold validate_lesson
    rw [ha]
    simp only []
    rcases he : l.end_time with _ | en <;> rw [h0]

/-- C5, witness: slot 7 raises invalid-slot; slot 0 returns `False`
without raising. -/
theorem invalid_slot_behavior_witness :
    validate_lesson [] (freshLesson (some 0) (some 7) 0 0 0) = .error .invalidSlot ∧
    validate_lesson [] (freshLesson (some 0) (some 0) 1 1 1) =
      .ok (freshLesson (some 0) (some 0) 1 1 1, false) :=
  ⟨(invalid_slot_behavior [] (freshLesson (some 0) (some 7) 0 0 0) 0 rfl).1 7 rfl
      (by decide) (by decide),
   (invalid_slot_behavior [] (freshLesson (some 0) (some 0) 1 1 1) 0 rfl).2 rfl rfl⟩

/-- C6, counterexample: the surfaced validation failure does not
distinguish the two conflict causes — a candidate conflicting only through
its teacher (its group 1 has no lessons) and a candidate conflicting only
through its group (its teacher 1 has no lessons) both fail with the same
single busy error. -/
theorem busy_error_indistinct :
    clean ⟨[⟨some 0, some 1, some 540, some 630, 0, 0, 0⟩], [(0, 0), (0, 1)], [(0, 0), (0, 1)]⟩
        (freshLesson (some 0) (some 1) 0 0 1) = .error .busy ∧
    clean ⟨[⟨some 0, some 1, some 540, some 630, 0, 0, 0⟩], [(0, 0), (0, 1)], [(0, 0), (0, 1)]⟩
        (freshLesson (some 0) (some 1) 0 1 0) = .error .busy ∧
    busyAgainst ([⟨some 0, some 1, some 540, some 630, 0, 0, 0⟩].filter
        fun y => decide (y.group = 1)) 540 630 = false ∧
    busyAgainst ([⟨some 0, some 1, some 540, some 630, 0, 0, 0⟩].filter
        fun y => decide (y.teacher = 1)) 540 630 = false := by decide

/-- C6 (amended): a time conflict — whether with a lesson of the same
teacher or of the same group — is always surfaced by `clean` as the one
undifferentiated busy error (`'The teacher or group is busy at this
time.'`); the code never reports which of the two caused it. -/
theorem busy_single_error (db : Store) (l l2 : Lesson)
    (ht : l.teacher ∈ teachersOf db l.subject)
    (hg : l.group ∈ groupsOf db l.subject)
    (hv : validate_lesson db.lessons l = .ok (l2, false)) :
    clean db l = .error .busy := by
  unfold clean
  rw [if_pos ht, if_pos hg, hv]

/-- C6, witness: the teacher-side conflict of the counterexample indeed
surfaces as the single busy error. -/
theorem busy_single_error_witness :
    clean ⟨[⟨some 0, some 1, some 540, some 630, 0, 0, 0⟩], [(0, 0), (0, 1)], [(0, 0), (0, 1)]⟩
        (freshLesson (some 0) (some 1) 0 0 1) = .error .busy :=
  busy_single_error
    ⟨[⟨some 0, some 1, some 540, some 630, 0, 0, 0⟩], [(0, 0), (0, 1)], [(0, 0), (0, 1)]⟩
    (freshLesson (some 0) (some 1) 0 0 1)
    ⟨some 0, some 1, some 540, some 630, 0, 0, 1⟩
    (by decide) (by decide) (by decide)

/-- C7: a persisted lesson with a defined interval is rejected by a
re-validation, because the queryset for its teacher includes the lesson
itself and its own start lies inside its own closed interval — so every
update that re-triggers validation with an unchanged interval fails. -/
theorem revalidation_rejected (L : List Lesson) (l : Lesson) (p q : Nat)
    (hmem : l ∈ L) (h1 : l.start_time = some p) (h2 : l.end_time = some q)
    (hpq : p ≤ q) (hkeep : assignSlotTimes l = .ok l) :
    validate_lesson L l = .ok (l, false) := by
  have hbusy : busyAgainst (L.filter fun y => decide (y.teacher = l.teacher)) p q = true := by
    refine List.any_eq_true.mpr ⟨l, List.mem_filter.mpr ⟨hmem, by simp⟩, ?_⟩
    unfold conflictsWith
    rw [h1, h2]
    simp [withinIncl, hpq]
  exact validate_teacher_busy hkeep h1 h2 hbusy

/-- C7, witness: re-validating the stored slot-3 lesson against a store
containing it returns `False`. -/
theorem revalidation_rejected_witness :
    validate_lesson [⟨some 0, some 3, some 795, some 885, 2, 2, 2⟩]
        ⟨some 0, some 3, some 795, some 885, 2, 2, 2⟩ =
      .ok (⟨some 0, some 3, some 795, some 885, 2, 2, 2⟩, false) :=
  revalidation_rejected [⟨some 0, some 3, some 795, some 885, 2, 2, 2⟩]
    ⟨some 0, some 3, some 795, some 885, 2, 2, 2⟩ 795 885
    (by decide) rfl rfl (by decide) (by decide)

/-- C8, counterexample: mutating methods are not granted only to
superusers — a staff user who is not a superuser is granted POST. -/
theorem mutation_not_superuser_only :
    "POST" ∈ unsafe_methods ∧
    (⟨false, true⟩ : ReqUser).is_superuser = false ∧
    has_permission "POST" ⟨false, true⟩ = true := by decide

/-- C8 (amended): `has_permission` grants POST/PUT/DELETE exactly to users
with `is_superuser` or `is_staff`, and grants every method of
`safe_methods` — including PATCH, the partial-update mutation — to every
user. -/
theorem permission_policy (u : ReqUser) (m : String) :
    (m ∈ unsafe_methods → has_permission m u = (u.is_superuser || u.is_staff)) ∧
    (m ∈ safe_methods → has_permission m u = true) := by
  constructor
  · intro h
    have hns : m ∉ safe_methods := by
      simp [unsafe_methods] at h
      rcases h with rfl | rfl | rfl <;> decide
    unfold has_permission
    rw [if_neg hns]
  · intro h
    unfold has_permission
    rw [if_pos h]

/-- C8, witness: PUT for a superuser evaluates to the superuser-or-staff
test; GET is granted to an ordinary user. -/
theorem permission_policy_witness :
    has_permission "PUT" ⟨true, false⟩ =
        ((⟨true, false⟩ : ReqUser).is_superuser || (⟨true, false⟩ : ReqUser).is_staff) ∧
    has_permission "GET" ⟨false, false⟩ = true :=
  ⟨(permission_policy ⟨true, false⟩ "PUT").1 (by decide),
   (permission_policy ⟨false, false⟩ "GET").2 (by decide)⟩

/-- C9: the `created`/`modified` validators raise exactly when the value is
strictly later than the current time, and accept it when it is equal to or
earlier. -/
theorem timestamp_not_future (now dt : Nat) :
    (check_created now dt = .ok () ↔ dt ≤ now) ∧
    (check_created now dt = .error .createdFuture ↔ now < dt) ∧
    (check_modified now dt = .ok () ↔ dt ≤ now) ∧
    (check_modified now dt = .error .modifiedFuture ↔ now < dt) := by
  unfold check_created check_modified
  by_cases h : dt > now
  · rw [if_pos h, if_pos h]
    simp
    omega
  · rw [if_neg h, if_neg h]
    simp
    omega

/-- C9, witness: a past value is accepted, a future value is rejected. -/
theorem timestamp_not_future_witness :
    check_created 5 3 = .ok () ∧ check_modified 3 5 = .error .modifiedFuture :=
  ⟨(timestamp_not_future 5 3).1.mpr (by decide),
   (timestamp_not_future 3 5).2.2.2.mpr (by decide)⟩

/-- C10 (code bug): the handlers implement exactly the claimed 404/200
responses, but the routed endpoints never reach them — the URLconf
captures the id as keyword `id` while both `get` handlers accept only
`user_id`, so every dispatch raises `TypeError` (HTTP 500) instead. -/
theorem user_detail_route_crash :
    route_user_student ⟨[1], [(1, 7)], []⟩ 1 = .typeError ∧
    route_user_teacher ⟨[1], [], [(1, 9)]⟩ 1 = .typeError ∧
    url_detail_kwarg ≠ view_detail_param ∧
    user_student_get ⟨[], [], []⟩ 1 = (404, .error "Пользователь не найден") ∧
    user_student_get ⟨[1], [], []⟩ 1 = (404, .error "Студент не найден") ∧
    user_student_get ⟨[1], [(1, 7)], []⟩ 1 = (200, .data 7) ∧
    user_teacher_get ⟨[2], [], []⟩ 2 = (404, .error "Учитель не найден") ∧
    user_teacher_get ⟨[2], [], [(2, 9)]⟩ 2 = (200, .data 9) ∧
    user_teacher_get ⟨[], [], []⟩ 2 = (404, .error "Пользователь не найден") := by decide

end Timetable
